import Mathlib

/-!
Shallow embedding of the sidecar process supervisor of the `chiken` desktop
application (`src-tauri/src/main.rs` and `src-tauri/src/secret_store.rs`).

The Tauri app manages a single shared slot `Arc<Mutex<Option<CommandChild>>>`.
We model the observable state of the application as `AppState`:
`managed` records whether the slot has been registered with the app
(`app.manage(...)` in `setup`, queried by `try_state`), `slot` is the content
of the mutex-guarded `Option<CommandChild>` (children are identified by
numeric ids handed out in spawn order), `nextId` is the id the next spawned
process would receive, and `spawnCount` counts how many OS spawns have
occurred.  External effects (the result of building the sidecar command, of
the OS spawn, of `kill`, of keyring calls, of `emit`) are passed in as
explicit environment values, matching the `Result` values the Rust code
receives from them.
-/

instance exceptDecEq {ε α : Type} [DecidableEq ε] [DecidableEq α] :
    DecidableEq (Except ε α)
  | Except.ok x, Except.ok y =>
    if h : x = y then Decidable.isTrue (h ▸ rfl)
    else Decidable.isFalse (fun he => h (Except.ok.inj he))
  | Except.ok _, Except.error _ => Decidable.isFalse (fun he => Except.noConfusion he)
  | Except.error _, Except.ok _ => Decidable.isFalse (fun he => Except.noConfusion he)
  | Except.error a, Except.error b =>
    if h : a = b then Decidable.isTrue (h ▸ rfl)
    else Decidable.isFalse (fun he => h (Except.error.inj he))

structure AppState where
  managed : Bool
  slot : Option Nat
  nextId : Nat
  spawnCount : Nat
deriving DecidableEq

/-- External results consumed by `spawn_and_monitor_sidecar`:
`sidecarCmd` is the result of `app_handle.shell().sidecar("chicken-core")`
(already `map_err`ed to a `String`), `spawnResult` the result of
`sidecar_command.spawn()`. -/
structure SidecarEnv where
  sidecarCmd : Except String Unit
  spawnResult : Except String Unit
deriving DecidableEq

/-- Embedding of `spawn_and_monitor_sidecar` (main.rs:79-132).
Control flow of the source: if the state is registered, lock and check the
slot, returning `Ok(())` early when a child is present (the lock guard is
dropped at the end of that block); then build the sidecar command, spawn it,
and re-acquire the lock to store the child, returning
`Err("Failed to access app state")` when the state is not registered (the
freshly spawned child is dropped in that case). -/
def spawn_and_monitor_sidecar (env : SidecarEnv) (s : AppState) :
    Except String Unit × AppState :=
  if s.managed && s.slot.isSome then
    (Except.ok (), s)
  else
    match env.sidecarCmd with
    | Except.error e => (Except.error e, s)
    | Except.ok _ =>
      match env.spawnResult with
      | Except.error e => (Except.error e, s)
      | Except.ok _ =>
        let child := s.nextId
        let s1 : AppState :=
          { s with nextId := s.nextId + 1, spawnCount := s.spawnCount + 1 }
        if s1.managed then
          (Except.ok (), { s1 with slot := some child })
        else
          (Except.error "Failed to access app state", s1)

/-- Embedding of the `start_sidecar` command (main.rs:166-171): delegates to
`spawn_and_monitor_sidecar` with `?` and on success returns the fixed
message. -/
def start_sidecar (env : SidecarEnv) (s : AppState) :
    Except String String × AppState :=
  match spawn_and_monitor_sidecar env s with
  | (Except.ok _, s1) => (Except.ok "Sidecar spawned and monitoring started.", s1)
  | (Except.error e, s1) => (Except.error e, s1)

/-- Embedding of the `shutdown_sidecar` command (main.rs:135-163).
`killResult` is the outcome of `process.kill()` with the OS error rendered
as a string.  The handle is `take`n from the slot before `kill` is called,
and is not re-inserted on failure. -/
def shutdown_sidecar (killResult : Except String Unit) (s : AppState) :
    Except String String × AppState :=
  if s.managed then
    match s.slot with
    | some _ =>
      match killResult with
      | Except.ok _ =>
        (Except.ok "Sidecar process terminated successfully.", { s with slot := none })
      | Except.error err =>
        (Except.error ("Failed to kill sidecar process: " ++ err), { s with slot := none })
    | none => (Except.error "No active sidecar process to shutdown.", s)
  else
    (Except.error "Sidecar process state not found.", s)

/-- The state right after `setup` has run `app.manage(Arc::new(Mutex::new(None)))`
on a fresh application: slot registered and empty, nothing spawned yet. -/
def freshApp : AppState :=
  { managed := true, slot := none, nextId := 0, spawnCount := 0 }

/-- The environment in which building the sidecar command and the OS spawn
both succeed. -/
def goodEnv : SidecarEnv :=
  { sidecarCmd := Except.ok (), spawnResult := Except.ok () }

example : spawn_and_monitor_sidecar goodEnv freshApp =
    (Except.ok (), { managed := true, slot := some 0, nextId := 1, spawnCount := 1 }) := by
  decide

example : (shutdown_sidecar (Except.ok ()) freshApp).1 =
    Except.error "No active sidecar process to shutdown." := by
  decide

/-- Sequential iteration of `spawn_and_monitor_sidecar`: `n` complete,
non-overlapping calls, each in the same environment. -/
def iterateStart (env : SidecarEnv) : Nat → AppState → AppState
  | 0, s => s
  | n + 1, s => iterateStart env n (spawn_and_monitor_sidecar env s).2

/-!
## Interleaved execution of two concurrent `start` calls

In the source, the mutex guard taken for the emptiness check (main.rs:82) is
dropped at the end of its block (main.rs:88), the OS spawn (main.rs:95) runs
with no lock held, and the lock is re-acquired to store the child
(main.rs:100).  A single invocation therefore decomposes into three atomic
steps — check (one critical section), spawn (no lock), install (another
critical section) — and two concurrent invocations execute as an arbitrary
interleaving of their steps.  We model the successful-environment case
(state registered, command construction and OS spawn both succeed), which is
the scenario of the singleton claim. -/

inductive StartPhase where
  /-- about to run the locked emptiness check -/
  | ready
  /-- observed an empty slot, about to issue the OS spawn (lock released) -/
  | spawning
  /-- spawned child `child`, about to lock and store it -/
  | installing (child : Nat)
  /-- returned with `result` -/
  | finished (result : Except String Unit)

structure ConcState where
  /-- content of the mutex-guarded slot -/
  slot : Option Nat
  /-- id the next OS spawn returns -/
  nextId : Nat
  /-- number of worker processes spawned and never killed (all spawned
  processes stay live here: `start` never kills) -/
  live : Nat
  t1 : StartPhase
  t2 : StartPhase

/-- One atomic step of a single `start` invocation in phase `ph`, operating
on the shared slot.  Returns the new phase and the updated shared state. -/
def stepStart (ph : StartPhase) (slot : Option Nat) (nextId live : Nat) :
    StartPhase × Option Nat × Nat × Nat :=
  match ph with
  | StartPhase.ready =>
    match slot with
    | some _ => (StartPhase.finished (Except.ok ()), slot, nextId, live)
    | none => (StartPhase.spawning, slot, nextId, live)
  | StartPhase.spawning =>
    (StartPhase.installing nextId, slot, nextId + 1, live + 1)
  | StartPhase.installing c =>
    (StartPhase.finished (Except.ok ()), some c, nextId, live)
  | StartPhase.finished r => (StartPhase.finished r, slot, nextId, live)

/-- Run one atomic step of thread 1 (`which = false`) or thread 2
(`which = true`). -/
def stepThread (which : Bool) (c : ConcState) : ConcState :=
  if which then
    let (ph, slot, nextId, live) := stepStart c.t2 c.slot c.nextId c.live
    { c with t2 := ph, slot := slot, nextId := nextId, live := live }
  else
    let (ph, slot, nextId, live) := stepStart c.t1 c.slot c.nextId c.live
    { c with t1 := ph, slot := slot, nextId := nextId, live := live }

/-- Execute a schedule: at each entry the named thread performs its next
atomic step. -/
def runSchedule (sched : List Bool) (c : ConcState) : ConcState :=
  sched.foldl (fun c w => stepThread w c) c

/-- Two concurrent `start` calls on the fresh application state. -/
def initConc : ConcState :=
  { slot := none, nextId := 0, live := 0, t1 := StartPhase.ready, t2 := StartPhase.ready }

/-!
## Application-exit handler

Embedding of the `RunEvent::ExitRequested` arm of `main` (main.rs:230-253)
as the ordered list of observable actions it performs, plus the resulting
state.  `save_window_state` is called first (its failure is only logged);
then, when the state slot is registered, the handle is `take`n and the
process killed when one is present (the kill failure, again, is only
logged). -/

inductive ExitAction where
  | saveWindowState
  | takeHandle
  | killProcess
  | logNoSidecar
  | logNoState
deriving DecidableEq

def on_exit_requested (killResult : Except String Unit) (s : AppState) :
    List ExitAction × AppState :=
  let afterSave : List ExitAction := [ExitAction.saveWindowState]
  if s.managed then
    match s.slot with
    | some _ =>
      -- `process.kill()` result is matched only to choose a log line
      match killResult with
      | Except.ok _ =>
        (afterSave ++ [ExitAction.takeHandle, ExitAction.killProcess], { s with slot := none })
      | Except.error _ =>
        (afterSave ++ [ExitAction.takeHandle, ExitAction.killProcess], { s with slot := none })
    | none => (afterSave ++ [ExitAction.logNoSidecar], s)
  else
    (afterSave ++ [ExitAction.logNoState], s)

/-- The ordering asserted by the spec's shutdown data flow: the handle is
taken from the Store, then the process is terminated, and only afterwards is
host state persisted. -/
def claimedExitOrder (tr : List ExitAction) : Prop :=
  ExitAction.takeHandle ∈ tr ∧ ExitAction.killProcess ∈ tr ∧
    ExitAction.saveWindowState ∈ tr ∧
    tr.indexOf ExitAction.takeHandle < tr.indexOf ExitAction.killProcess ∧
    tr.indexOf ExitAction.killProcess < tr.indexOf ExitAction.saveWindowState

instance (tr : List ExitAction) : Decidable (claimedExitOrder tr) := by
  unfold claimedExitOrder; infer_instance

/-!
## Executable path resolution

Embedding of `get_sidecar_path` (main.rs:30-76).  Filesystem paths are
modelled as lists of components; `PathBuf::join` appends a component and
`Path::parent` drops the last component (and is unavailable on an empty
path, matching `parent()` returning `None`).  The environment carries the
results of the OS queries the function makes: `cfg!(debug_assertions)`, the
canonicalization of the development source path, `resource_dir()` (`none`
for `Err(_)`), the `exists()` predicate, `env::current_exe()`, and
`env::consts::OS`. -/

def binName (os : String) : String :=
  if os = "windows" then "chicken-core.exe" else "chicken-core"

def parentDir (p : List String) : Option (List String) :=
  match p with
  | [] => none
  | _ => some p.dropLast

structure PathEnv where
  debugAssertions : Bool
  devCanonical : Except String (List String)
  resourceDir : Option (List String)
  pathExists : List String → Bool
  currentExe : Except String (List String)
  os : String

def get_sidecar_path (env : PathEnv) : Except String (List String) :=
  if env.debugAssertions then
    match env.devCanonical with
    | Except.ok p => Except.ok p
    | Except.error e => Except.error ("Failed to resolve dev sidecar path: " ++ e)
  else
    -- `if let Ok(resource_path) = handle.path().resource_dir()` block: returns
    -- only when the joined path exists, otherwise falls through
    let resourceHit : Option (List String) :=
      match env.resourceDir with
      | some resource_path =>
        let sidecar_path := resource_path ++ [binName env.os]
        if env.pathExists sidecar_path then some sidecar_path else none
      | none => none
    match resourceHit with
    | some p => Except.ok p
    | none =>
      match env.currentExe with
      | Except.error e => Except.error ("Failed to get executable path: " ++ e)
      | Except.ok exe =>
        match parentDir exe with
        | none => Except.error "Failed to get parent directory"
        | some app_dir => Except.ok (app_dir ++ [binName env.os])

/-!
## Secret store

Embedding of `secret_store::get_secret` (secret_store.rs:15-24).  The
environment carries the result of `Entry::new(SERVICE_NAME, &username)`
(error already rendered) and of `entry.get_password()`. -/

inductive KeyringError where
  | NoEntry
  | Other (msg : String)
deriving DecidableEq

structure KeyringEnv where
  entryNew : Except String Unit
  getPassword : Except KeyringError String

def get_secret (env : KeyringEnv) : Except String (Option String) :=
  match env.entryNew with
  | Except.error e => Except.error ("Failed to create keyring entry: " ++ e)
  | Except.ok _ =>
    match env.getPassword with
    | Except.ok val => Except.ok (some val)
    | Except.error KeyringError.NoEntry => Except.ok none
    | Except.error (KeyringError.Other e) => Except.error ("Failed to get secret: " ++ e)

/-!
## Output relay

Embedding of the async task of `spawn_and_monitor_sidecar` (main.rs:107-129).
The task loops on `rx.recv()`; a `Stdout`/`Stderr` event is decoded with
`String::from_utf8_lossy` and emitted with
`app_handle.emit(..).expect(..)` — the `expect` turns an emit error into a
panic, which aborts the task.  `emit` (the Tauri event publication) and the
lossy decoder are passed in as the environment; the received events are a
list, the closed channel being the empty tail. -/

inductive CommandEvent where
  | Stdout (bytes : List Nat)
  | Stderr (bytes : List Nat)
  | other
deriving DecidableEq

inductive RelayOutcome where
  /-- the loop moved on to the next `rx.recv()` / ended at channel close -/
  | continues
  /-- the task died in `expect` with the given panic message -/
  | panicked (msg : String)
deriving DecidableEq

def relay_handle_event (emit : String → String → Except String Unit)
    (decodeLossy : List Nat → String) (ev : CommandEvent) : RelayOutcome :=
  match ev with
  | CommandEvent.Stdout line_bytes =>
    match emit "sidecar-stdout" (decodeLossy line_bytes) with
    | Except.ok _ => RelayOutcome.continues
    | Except.error _ => RelayOutcome.panicked "Failed to emit sidecar stdout event"
  | CommandEvent.Stderr line_bytes =>
    match emit "sidecar-stderr" (decodeLossy line_bytes) with
    | Except.ok _ => RelayOutcome.continues
    | Except.error _ => RelayOutcome.panicked "Failed to emit sidecar stderr event"
  | CommandEvent.other => RelayOutcome.continues

def relay_run (emit : String → String → Except String Unit)
    (decodeLossy : List Nat → String) : List CommandEvent → RelayOutcome
  | [] => RelayOutcome.continues
  | ev :: rest =>
    match relay_handle_event emit decodeLossy ev with
    | RelayOutcome.continues => relay_run emit decodeLossy rest
    | RelayOutcome.panicked m => RelayOutcome.panicked m

/-- The application state after one successful `start` on `freshApp`. -/
def runningApp : AppState :=
  { managed := true, slot := some 0, nextId := 1, spawnCount := 1 }

/-- An environment in which the OS refuses the spawn. -/
def badSpawnEnv : SidecarEnv :=
  { sidecarCmd := Except.ok (), spawnResult := Except.error "os refused to spawn" }

/-- A fresh application on which `setup` never ran `app.manage`. -/
def unmanagedApp : AppState :=
  { managed := false, slot := none, nextId := 0, spawnCount := 0 }

/-!
## Helper lemmas
-/

lemma spawn_noop_of_running (env : SidecarEnv) (s : AppState)
    (hm : s.managed = true) (hs : s.slot.isSome = true) :
    spawn_and_monitor_sidecar env s = (Except.ok (), s) := by
  simp [spawn_and_monitor_sidecar, hm, hs]

lemma spawn_fail_cmd (env : SidecarEnv) (s : AppState) (e : String)
    (hm : s.managed = true) (hs : s.slot = none)
    (he : env.sidecarCmd = Except.error e) :
    spawn_and_monitor_sidecar env s = (Except.error e, s) := by
  simp [spawn_and_monitor_sidecar, hm, hs, he]

lemma spawn_fail_spawn (env : SidecarEnv) (s : AppState) (e : String)
    (hm : s.managed = true) (hs : s.slot = none)
    (hc : env.sidecarCmd = Except.ok ()) (he : env.spawnResult = Except.error e) :
    spawn_and_monitor_sidecar env s = (Except.error e, s) := by
  simp [spawn_and_monitor_sidecar, hm, hs, hc, he]

lemma spawn_success (env : SidecarEnv) (s : AppState)
    (hm : s.managed = true) (hs : s.slot = none)
    (hc : env.sidecarCmd = Except.ok ()) (hr : env.spawnResult = Except.ok ()) :
    spawn_and_monitor_sidecar env s =
      (Except.ok (),
       { s with slot := some s.nextId, nextId := s.nextId + 1,
                spawnCount := s.spawnCount + 1 }) := by
  simp [spawn_and_monitor_sidecar, hm, hs, hc, hr]

lemma kill_msg_ne (err : String) :
    "Failed to kill sidecar process: " ++ err ≠
      "No active sidecar process to shutdown." := by
  intro h
  have h1 : ("Failed to kill sidecar process: " ++ err).get 0 = 'F' := rfl
  rw [h] at h1
  exact absurd h1 (by decide)

lemma iterateStart_stable (env : SidecarEnv) (n : Nat) (s : AppState)
    (hm : s.managed = true) (hs : s.slot.isSome = true) :
    iterateStart env n s = s := by
  induction n with
  | zero => rfl
  | succ n ih =>
    have h1 : (spawn_and_monitor_sidecar env s).2 = s := by
      rw [spawn_noop_of_running env s hm hs]
    simp [iterateStart, h1, ih]

/-!
## Claim theorems
-/

/-- C2: for every call to `start` while a handle is already present in the
Process Handle Store, `start` returns success immediately without spawning a
new process and without modifying the Store (the returned state is the input
state, so `spawnCount` and `slot` are untouched). -/
theorem C2_start_idempotent_success (env : SidecarEnv) (s : AppState) (h : Nat)
    (hm : s.managed = true) (hs : s.slot = some h) :
    start_sidecar env s = (Except.ok "Sidecar spawned and monitoring started.", s) := by
  have h1 := spawn_noop_of_running env s hm (by rw [hs]; rfl)
  simp [start_sidecar, h1]

/-- Witness for C2 at a concrete running state and environment. -/
theorem C2_start_idempotent_success_witness :
    start_sidecar goodEnv runningApp =
      (Except.ok "Sidecar spawned and monitoring started.", runningApp) :=
  C2_start_idempotent_success goodEnv runningApp 0 rfl rfl

/-- C4: if `start` fails (building the sidecar command fails or the OS
refuses to spawn), it returns an error and the Process Handle Store remains
exactly as it was — empty — and a subsequent `start` in a healthy
environment performs a fresh spawn (`spawnCount` increases). -/
theorem C4_spawn_failure_clean (env env2 : SidecarEnv) (s : AppState)
    (hm : s.managed = true) (hs : s.slot = none)
    (hfail : (∃ e, env.sidecarCmd = Except.error e) ∨
      (env.sidecarCmd = Except.ok () ∧ ∃ e, env.spawnResult = Except.error e)) :
    (∃ e, (spawn_and_monitor_sidecar env s).1 = Except.error e) ∧
    (spawn_and_monitor_sidecar env s).2 = s ∧
    (env2.sidecarCmd = Except.ok () → env2.spawnResult = Except.ok () →
      (spawn_and_monitor_sidecar env2 (spawn_and_monitor_sidecar env s).2).2.spawnCount
        = s.spawnCount + 1) := by
  obtain ⟨e, heq⟩ : ∃ e, spawn_and_monitor_sidecar env s = (Except.error e, s) := by
    rcases hfail with ⟨e, he⟩ | ⟨hc0, e, he⟩
    · exact ⟨e, spawn_fail_cmd env s e hm hs he⟩
    · exact ⟨e, spawn_fail_spawn env s e hm hs hc0 he⟩
  refine ⟨⟨e, by rw [heq]⟩, by rw [heq], fun hc hr => ?_⟩
  rw [heq]
  simp [spawn_success env2 s hm hs hc hr]

/-- Witness for C4: a failed spawn on the fresh app, retried successfully. -/
theorem C4_spawn_failure_clean_witness :
    (∃ e, (spawn_and_monitor_sidecar badSpawnEnv freshApp).1 = Except.error e) ∧
    (spawn_and_monitor_sidecar badSpawnEnv freshApp).2 = freshApp ∧
    (goodEnv.sidecarCmd = Except.ok () → goodEnv.spawnResult = Except.ok () →
      (spawn_and_monitor_sidecar goodEnv
        (spawn_and_monitor_sidecar badSpawnEnv freshApp).2).2.spawnCount
        = freshApp.spawnCount + 1) :=
  C4_spawn_failure_clean badSpawnEnv goodEnv freshApp rfl rfl
    (Or.inr ⟨rfl, "os refused to spawn", rfl⟩)

/-- C10: when the managed state slot was never registered, the
duplicate-spawn check is skipped (the conclusion holds for any slot
content), the process is spawned anyway (`spawnCount` increments), and the
operation returns the "Failed to access app state" error with the child
handle dropped — the slot is untouched, so no handle is retained anywhere. -/
theorem C10_unmanaged_spawns_and_errors (env : SidecarEnv) (s : AppState)
    (hm : s.managed = false)
    (hc : env.sidecarCmd = Except.ok ()) (hr : env.spawnResult = Except.ok ()) :
    spawn_and_monitor_sidecar env s =
      (Except.error "Failed to access app state",
       { s with nextId := s.nextId + 1, spawnCount := s.spawnCount + 1 }) := by
  simp [spawn_and_monitor_sidecar, hm, hc, hr]

/-- Witness for C10 on the unmanaged fresh app. -/
theorem C10_unmanaged_spawns_and_errors_witness :
    spawn_and_monitor_sidecar goodEnv unmanagedApp =
      (Except.error "Failed to access app state",
       { unmanagedApp with nextId := unmanagedApp.nextId + 1,
                           spawnCount := unmanagedApp.spawnCount + 1 }) :=
  C10_unmanaged_spawns_and_errors goodEnv unmanagedApp rfl rfl rfl

/-- C6: if the OS refuses the termination request, `shutdown` returns the
kill-failure error, yet the handle has already been taken from the Store and
is not re-inserted (`slot = none` in the result state); a subsequent `start`
in a healthy environment therefore spawns a fresh process. -/
theorem C6_kill_failure_clears_slot (err : String) (s : AppState) (h : Nat)
    (env2 : SidecarEnv) (hm : s.managed = true) (hs : s.slot = some h) :
    shutdown_sidecar (Except.error err) s =
      (Except.error ("Failed to kill sidecar process: " ++ err),
       { s with slot := none }) ∧
    (env2.sidecarCmd = Except.ok () → env2.spawnResult = Except.ok () →
      spawn_and_monitor_sidecar env2 { s with slot := none } =
        (Except.ok (),
         { s with slot := some s.nextId, nextId := s.nextId + 1,
                  spawnCount := s.spawnCount + 1 })) := by
  constructor
  · simp [shutdown_sidecar, hm, hs]
  · intro hc hr
    have h1 := spawn_success env2 { s with slot := none } (by simpa using hm) rfl hc hr
    simpa using h1

/-- Witness for C6 at the running app with a refused kill. -/
theorem C6_kill_failure_clears_slot_witness :
    shutdown_sidecar (Except.error "ESRCH") runningApp =
      (Except.error ("Failed to kill sidecar process: " ++ "ESRCH"),
       { runningApp with slot := none }) ∧
    (goodEnv.sidecarCmd = Except.ok () → goodEnv.spawnResult = Except.ok () →
      spawn_and_monitor_sidecar goodEnv { runningApp with slot := none } =
        (Except.ok (),
         { runningApp with slot := some runningApp.nextId,
                           nextId := runningApp.nextId + 1,
                           spawnCount := runningApp.spawnCount + 1 })) :=
  C6_kill_failure_clears_slot "ESRCH" runningApp 0 goodEnv rfl rfl

/-- C3: `shutdown` fails with the distinct not-running error exactly when
the Process Handle Store is empty, and the scenario `start(); shutdown();
shutdown()` on a fresh application yields `Ok`, `Ok`, `Err(NotRunning)` —
never two successes. -/
theorem C3_shutdown_not_running (kr : Except String Unit) (s : AppState)
    (hm : s.managed = true) :
    ((shutdown_sidecar kr s).1 = Except.error "No active sidecar process to shutdown."
      ↔ s.slot = none) ∧
    (start_sidecar goodEnv freshApp).1 =
      Except.ok "Sidecar spawned and monitoring started." ∧
    (shutdown_sidecar (Except.ok ()) (start_sidecar goodEnv freshApp).2).1 =
      Except.ok "Sidecar process terminated successfully." ∧
    (shutdown_sidecar (Except.ok ())
        (shutdown_sidecar (Except.ok ()) (start_sidecar goodEnv freshApp).2).2).1 =
      Except.error "No active sidecar process to shutdown." := by
  refine ⟨⟨?_, ?_⟩, rfl, rfl, rfl⟩
  · intro hres
    by_contra hne
    obtain ⟨h, hsome⟩ := Option.ne_none_iff_exists'.mp hne
    cases kr with
    | ok u => simp [shutdown_sidecar, hm, hsome] at hres
    | error e =>
      simp [shutdown_sidecar, hm, hsome] at hres
      exact kill_msg_ne e hres
  · intro hnone
    simp [shutdown_sidecar, hm, hnone]

/-- Witness for C3 on the fresh application. -/
theorem C3_shutdown_not_running_witness :
    ((shutdown_sidecar (Except.ok ()) freshApp).1 =
        Except.error "No active sidecar process to shutdown." ↔ freshApp.slot = none) ∧
    (start_sidecar goodEnv freshApp).1 =
      Except.ok "Sidecar spawned and monitoring started." ∧
    (shutdown_sidecar (Except.ok ()) (start_sidecar goodEnv freshApp).2).1 =
      Except.ok "Sidecar process terminated successfully." ∧
    (shutdown_sidecar (Except.ok ())
        (shutdown_sidecar (Except.ok ()) (start_sidecar goodEnv freshApp).2).2).1 =
      Except.error "No active sidecar process to shutdown." :=
  C3_shutdown_not_running (Except.ok ()) freshApp rfl

/-- C1 counterexample: the claimed concurrency property — for all
interleavings of two concurrent `start` calls at most one worker process is
ever live — is false.  The schedule check₁, check₂, spawn₁, spawn₂,
install₁, install₂ is possible precisely because the emptiness check and the
installation are in two separate critical sections, and it leaves two live
worker processes. -/
theorem C1_singleton_counterexample :
    ¬ ∀ sched : List Bool, (runSchedule sched initConc).live ≤ 1 := by
  intro hclaim
  exact absurd (hclaim [false, true, false, true, false, true]) (by decide)

/-- C1 amended: the emptiness check and the installation are performed in
two separate critical sections (the lock is released across the spawn), so
for sequential `start` calls the singleton invariant holds — `n` complete
calls on the fresh application spawn `min n 1` processes — but there exists
an interleaving of two concurrent `start` calls in which both pass the empty
check, both spawn, both report success, and two worker processes are live. -/
theorem C1_singleton_amended :
    (∀ n : Nat, (iterateStart goodEnv n freshApp).spawnCount = min n 1) ∧
    (∃ sched : List Bool,
      (runSchedule sched initConc).live = 2 ∧
      (runSchedule sched initConc).t1 = StartPhase.finished (Except.ok ()) ∧
      (runSchedule sched initConc).t2 = StartPhase.finished (Except.ok ())) := by
  constructor
  · intro n
    cases n with
    | zero => rfl
    | succ n =>
      have h1 : iterateStart goodEnv (n + 1) freshApp = iterateStart goodEnv n runningApp := by
        simp [iterateStart]
        rfl
      rw [h1, iterateStart_stable goodEnv n runningApp rfl rfl]
      have h2 : min (n + 1) 1 = 1 := by omega
      rw [h2]
      rfl
  · exact ⟨[false, true, false, true, false, true], rfl, rfl, rfl⟩

/-- C5 counterexample: the claim that a failure to publish a line event is
not fatal to the Output Relay is false — with an `emit` that fails, the
relay's handling of a single stdout line ends in the `expect` panic, which
aborts the task rather than returning an error to any caller. -/
theorem C5_publish_failure_counterexample :
    ¬ ∀ (emit : String → String → Except String Unit)
        (decodeLossy : List Nat → String) (evs : List CommandEvent),
        relay_run emit decodeLossy evs = RelayOutcome.continues := by
  intro hclaim
  have h1 := hclaim (fun _ _ => Except.error "no listener") (fun _ => "")
    [CommandEvent.Stdout [104]]
  exact absurd h1 (by decide)

/-- C5 amended: when every publish succeeds the relay processes all events
and terminates naturally at channel close; but a failed publish of a line
event makes the relay abort via the `expect` panic — publication is not
fire-and-forget, and this abort is not returned as a result value to any
caller (the remaining events are never processed). -/
theorem C5_publish_failure_amended :
    (∀ (decodeLossy : List Nat → String) (evs : List CommandEvent),
      relay_run (fun _ _ => Except.ok ()) decodeLossy evs = RelayOutcome.continues) ∧
    (∀ (emit : String → String → Except String Unit)
        (decodeLossy : List Nat → String) (bytes : List Nat)
        (rest : List CommandEvent) (e : String),
      emit "sidecar-stdout" (decodeLossy bytes) = Except.error e →
      relay_run emit decodeLossy (CommandEvent.Stdout bytes :: rest) =
        RelayOutcome.panicked "Failed to emit sidecar stdout event") ∧
    (∀ (emit : String → String → Except String Unit)
        (decodeLossy : List Nat → String) (bytes : List Nat)
        (rest : List CommandEvent) (e : String),
      emit "sidecar-stderr" (decodeLossy bytes) = Except.error e →
      relay_run emit decodeLossy (CommandEvent.Stderr bytes :: rest) =
        RelayOutcome.panicked "Failed to emit sidecar stderr event") := by
  refine ⟨fun decodeLossy evs => ?_, fun emit dec bytes rest e he => ?_, fun emit dec bytes rest e he => ?_⟩
  · induction evs with
    | nil => rfl
    | cons ev rest ih => cases ev <;> simpa [relay_run, relay_handle_event] using ih
  · simp [relay_run, relay_handle_event, he]
  · simp [relay_run, relay_handle_event, he]

/-- Witness for the amended C5 at a concrete failing emit. -/
theorem C5_publish_failure_amended_witness :
    relay_run (fun _ _ => Except.error "no listener") (fun _ => "")
      [CommandEvent.Stdout [104]] =
      RelayOutcome.panicked "Failed to emit sidecar stdout event" :=
  C5_publish_failure_amended.2.1 (fun _ _ => Except.error "no listener")
    (fun _ => "") [104] [] "no listener" rfl

/-- C7 counterexample: on an exit request with a sidecar running, the
handler's action trace is persist-first — `save_window_state`, then the
handle is taken, then the process killed — so the claimed order (take, kill,
and only afterwards persist) does not hold on it. -/
theorem C7_exit_order_counterexample :
    (on_exit_requested (Except.ok ()) runningApp).1 =
      [ExitAction.saveWindowState, ExitAction.takeHandle, ExitAction.killProcess] ∧
    ¬ claimedExitOrder (on_exit_requested (Except.ok ()) runningApp).1 := by
  exact ⟨rfl, by decide⟩

/-- C7 amended: on an application exit request with a worker running, the
steps occur in this order: pending host state (window geometry) is persisted
first, then the handle is retrieved and removed from the Store, then the
process is terminated; the Store ends empty. -/
theorem C7_exit_order_amended (kr : Except String Unit) (s : AppState) (h : Nat)
    (hm : s.managed = true) (hs : s.slot = some h) :
    (on_exit_requested kr s).1 =
      [ExitAction.saveWindowState, ExitAction.takeHandle, ExitAction.killProcess] ∧
    (on_exit_requested kr s).2 = { s with slot := none } := by
  cases kr <;> simp [on_exit_requested, hm, hs]

/-- Witness for the amended C7 at the running app. -/
theorem C7_exit_order_amended_witness :
    (on_exit_requested (Except.ok ()) runningApp).1 =
      [ExitAction.saveWindowState, ExitAction.takeHandle, ExitAction.killProcess] ∧
    (on_exit_requested (Except.ok ()) runningApp).2 = { runningApp with slot := none } :=
  C7_exit_order_amended (Except.ok ()) runningApp 0 rfl rfl

/-- C8: in packaged mode (`debug_assertions` off), resolution first probes
the resource directory for the per-OS binary name (`chicken-core.exe` on
Windows, `chicken-core` otherwise) and returns that path only if it exists
on disk; otherwise it returns the parent directory of the currently running
executable joined with the same per-OS name — with no constraint on
`pathExists` at that fallback path, i.e. without existence verification. -/
theorem C8_packaged_resolution (env : PathEnv) (hdbg : env.debugAssertions = false) :
    (binName "windows" = "chicken-core.exe" ∧
      ∀ os, os ≠ "windows" → binName os = "chicken-core") ∧
    (∀ rdir, env.resourceDir = some rdir →
      env.pathExists (rdir ++ [binName env.os]) = true →
      get_sidecar_path env = Except.ok (rdir ++ [binName env.os])) ∧
    (∀ exe dir,
      (env.resourceDir = none ∨
        ∃ rdir, env.resourceDir = some rdir ∧
          env.pathExists (rdir ++ [binName env.os]) = false) →
      env.currentExe = Except.ok exe → parentDir exe = some dir →
      get_sidecar_path env = Except.ok (dir ++ [binName env.os])) := by
  refine ⟨⟨rfl, fun os hos => by simp [binName, hos]⟩, ?_, ?_⟩
  · intro rdir hr hex
    simp [get_sidecar_path, hdbg, hr, hex]
  · intro exe dir hmiss hexe hpar
    rcases hmiss with hnone | ⟨rdir, hr, hex⟩
    · simp [get_sidecar_path, hdbg, hnone, hexe, hpar]
    · simp [get_sidecar_path, hdbg, hr, hex, hexe, hpar]

/-- Packaged environment whose resource directory holds the binary. -/
def pathEnvResource : PathEnv :=
  { debugAssertions := false, devCanonical := Except.error "unset",
    resourceDir := some ["Resources"], pathExists := fun _ => true,
    currentExe := Except.ok ["opt", "app"], os := "linux" }

/-- Packaged environment with no resource directory and a filesystem on
which no path exists at all — the fallback is still returned. -/
def pathEnvFallback : PathEnv :=
  { debugAssertions := false, devCanonical := Except.error "unset",
    resourceDir := none, pathExists := fun _ => false,
    currentExe := Except.ok ["opt", "app"], os := "linux" }

/-- Witness for C8: the resource hit and the unverified fallback. -/
theorem C8_packaged_resolution_witness :
    get_sidecar_path pathEnvResource = Except.ok ["Resources", "chicken-core"] ∧
    get_sidecar_path pathEnvFallback = Except.ok ["opt", "chicken-core"] :=
  ⟨(C8_packaged_resolution pathEnvResource rfl).2.1 ["Resources"] rfl rfl,
   (C8_packaged_resolution pathEnvFallback rfl).2.2 ["opt", "app"] ["opt"]
     (Or.inl rfl) rfl rfl⟩

/-- C9: loading a secret when none is stored (`get_password` reports
`NoEntry`) returns the distinguished success `Ok(None)`, not an error; and
any error outcome of `get_secret` stems from a keyring failure other than
the no-entry case (entry construction failed, or `get_password` failed with
some other error). -/
theorem C9_no_secret_is_success (env : KeyringEnv) :
    (env.entryNew = Except.ok () →
      env.getPassword = Except.error KeyringError.NoEntry →
      get_secret env = Except.ok none) ∧
    (∀ msg, get_secret env = Except.error msg →
      (∃ e, env.entryNew = Except.error e) ∨
      (∃ e, env.getPassword = Except.error (KeyringError.Other e))) := by
  constructor
  · intro h1 h2
    simp [get_secret, h1, h2]
  · intro msg hmsg
    cases hen : env.entryNew with
    | error e => exact Or.inl ⟨e, rfl⟩
    | ok u =>
      cases hgp : env.getPassword with
      | ok v => simp [get_secret, hen, hgp] at hmsg
      | error ke =>
        cases ke with
        | NoEntry => simp [get_secret, hen, hgp] at hmsg
        | Other e => exact Or.inr ⟨e, rfl⟩

/-- Keyring environment with no stored secret. -/
def keyringNoEntry : KeyringEnv :=
  { entryNew := Except.ok (), getPassword := Except.error KeyringError.NoEntry }

/-- Witness for C9 with no stored secret. -/
theorem C9_no_secret_is_success_witness :
    get_secret keyringNoEntry = Except.ok none :=
  (C9_no_secret_is_success keyringNoEntry).1 rfl rfl
